import Mathlib

/-
  Shallow embedding of the FastApi-App book service (Anurag0311/FastApi-App).

  The repository contains two parallel router implementations of the same
  endpoints: `api/books.py` (the revised router) and `app/crud/books.py`
  (the original router).  They differ in two observable places:
    * the author filter of the list endpoint (`ilike '%a%'` vs `== a`),
    * the get-by-id lookup (excludes Terminated vs does not).
  Both variants are embedded below, with `api_` / `crud_` names.

  Records live in a `List Book` in insertion order; SQLAlchemy's
  `.first()` is `List.find?`, `query(exists()...)` is `List.any`, and
  mutating the ORM object returned by `.first()` is `updateFirst`.
  The model column `updated_at = Column(DateTime, onupdate=func.now())`
  stamps `updated_at` on every UPDATE emitted for a row; this is embedded
  as `stampUpdated`, applied whenever a handler mutates a record.
-/

namespace FastApiApp

/-- The Book row of `models/model.py`: id, title, author, published_year,
genre, available, status (default "Present"), created_at, updated_at
(null until the first update; `onupdate=func.now()`). Timestamps are
abstract `Nat` ticks. -/
structure Book where
  id : Nat
  title : String
  author : String
  published_year : Int
  genre : String
  available : Bool
  status : String
  created_at : Nat
  updated_at : Option Nat
  deriving DecidableEq, Repr

/-- Response body produced by the helpers of `utils/helpers.py`:
a status flag, a message, and an optional data payload whose shape
depends on the endpoint. -/
structure Body (α : Type) where
  statusFlag : Bool
  message : String
  data : Option α
  deriving DecidableEq, Repr

/-- `utils/helpers.py::response_format_success`: body with status True,
the given message, and the data when provided. -/
def response_format_success {α : Type} (message : String) (data : Option α) : Body α :=
  { statusFlag := true, message := message, data := data }

/-- `utils/helpers.py::response_format_failure`: body with status False and
the given message (the helper takes no data parameter). -/
def response_format_failure {α : Type} (message : String) : Body α :=
  { statusFlag := false, message := message, data := none }

/-- SQL `lower()` / Python `str.lower()`, folded over the character
list. -/
def strLower (s : String) : String :=
  String.mk (s.toList.map Char.toLower)

/-- `utils/helpers.py::find_by_title_author`: SQL EXISTS over all rows with
`lower(title) = lower(arg)` and `lower(author) = lower(arg)`.  Note: no
filter on `status` appears in the source query. -/
def find_by_title_author (title author : String) (store : List Book) : Bool :=
  store.any (fun b => strLower b.title == strLower title && strLower b.author == strLower author)

/-- The model's `onupdate=func.now()` hook on `updated_at`: any UPDATE
emitted for a row sets `updated_at` to the current time. -/
def stampUpdated (now : Nat) (b : Book) : Book :=
  { b with updated_at := some now }

/-- Mutation of the single ORM object returned by `.first()`: rewrite the
first record satisfying the predicate, leave everything else in place. -/
def updateFirst (p : Book → Bool) (f : Book → Book) : List Book → List Book
  | [] => []
  | b :: bs => if p b then f b :: bs else b :: updateFirst p f bs

/-- A validated create payload (`BookSchema` after validation): all five
fields present and typed. -/
structure BookPayload where
  title : String
  author : String
  published_year : Int
  genre : String
  available : Bool
  deriving DecidableEq, Repr

/-- `api/books.py::add_book`: 409 Conflict when `find_by_title_author`
finds any matching row, else insert a new row (status default "Present",
`created_at` default now, `updated_at` null) and answer 201. -/
def add_book (book : BookPayload) (store : List Book) (newId now : Nat) :
    (Nat × Body Unit) × List Book :=
  if find_by_title_author book.title book.author store then
    ((409, response_format_failure "Title and Author already present"), store)
  else
    ((201, response_format_success "Sucessfully created" none),
      store ++ [{ id := newId, title := book.title, author := book.author,
                  published_year := book.published_year, genre := book.genre,
                  available := book.available, status := "Present",
                  created_at := now, updated_at := none }])

/-- The optional filter and pagination parameters of the list endpoint. -/
structure ListQuery where
  author : Option String
  genre : Option String
  available : Option Bool
  start : Option Nat
  limit : Option Nat
  deriving DecidableEq, Repr

/-- Substring test on character lists, used to embed SQL
`ilike '%pat%'`. -/
def strHasSub (pat : List Char) : List Char → Bool
  | [] => pat.isEmpty
  | c :: t => pat.isPrefixOf (c :: t) || strHasSub pat t

/-- `Book.author.ilike(f"%{author}%")`: case-insensitive substring
match. -/
def ilikeContains (s pat : String) : Bool :=
  strHasSub (strLower pat).toList (strLower s).toList

/-- The row predicate built by `api/books.py::get_book`: AND of the
supplied filters (author as case-insensitive substring, genre and
available exact) and the unconditional `status != "Terminated"`. -/
def api_book_pred (q : ListQuery) (b : Book) : Bool :=
  (match q.author with
   | none => true
   | some a => ilikeContains b.author a)
  && (match q.genre with
      | none => true
      | some g => b.genre == g)
  && (match q.available with
      | none => true
      | some v => b.available == v)
  && (b.status != "Terminated")

/-- The row predicate built by `app/crud/books.py::get_book`: identical
except the author filter is exact equality (`Book.author == author`). -/
def crud_book_pred (q : ListQuery) (b : Book) : Bool :=
  (match q.author with
   | none => true
   | some a => b.author == a)
  && (match q.genre with
      | none => true
      | some g => b.genre == g)
  && (match q.available with
      | none => true
      | some v => b.available == v)
  && (b.status != "Terminated")

/-- A list item of `api/books.py::get_book` (includes the id). -/
structure BookItem where
  id : Nat
  title : String
  author : String
  published_year : Int
  genre : String
  available : Bool
  deriving DecidableEq, Repr

/-- A serialized book of `app/crud/books.py::get_book` and of both
get-by-id handlers: title, author, published_year, genre, available. -/
structure BookView where
  title : String
  author : String
  published_year : Int
  genre : String
  available : Bool
  deriving DecidableEq, Repr

/-- Projection of a row to the api list item shape. -/
def Book.toItem (b : Book) : BookItem :=
  { id := b.id, title := b.title, author := b.author,
    published_year := b.published_year, genre := b.genre, available := b.available }

/-- Projection of a row to the five-field view. -/
def Book.toView (b : Book) : BookView :=
  { title := b.title, author := b.author, published_year := b.published_year,
    genre := b.genre, available := b.available }

/-- Payload of the api list response: `{"items": [...]}` when no
pagination was requested, else `{"data": [...], "pagination": {...}}`. -/
inductive ApiListPayload where
  | items (xs : List BookItem)
  | paged (xs : List BookItem) (start limit total_items : Nat)
  deriving DecidableEq, Repr

/-- Payload of the crud list response (items carry no id). -/
inductive CrudListPayload where
  | items (xs : List BookView)
  | paged (xs : List BookView) (start limit total_items : Nat)
  deriving DecidableEq, Repr

/-- `api/books.py::get_book`: filter, count before pagination, apply
offset/limit only when both `start` and `limit` are supplied, serialize,
and wrap in a success envelope. -/
def api_get_book (q : ListQuery) (store : List Book) : Nat × Body ApiListPayload :=
  let filtered := store.filter (api_book_pred q)
  let total_items := filtered.length
  let results :=
    match q.start, q.limit with
    | some s, some l => (filtered.drop s).take l
    | _, _ => filtered
  let items := results.map Book.toItem
  match q.start, q.limit with
  | some s, some l =>
      (200, response_format_success "Successfully Fetched"
        (some (ApiListPayload.paged items s l total_items)))
  | _, _ =>
      (200, response_format_success "Successfully Fetched"
        (some (ApiListPayload.items items)))

/-- `app/crud/books.py::get_book`: same structure with the exact author
filter and id-less items. -/
def crud_get_book (q : ListQuery) (store : List Book) : Nat × Body CrudListPayload :=
  let filtered := store.filter (crud_book_pred q)
  let total_items := filtered.length
  let results :=
    match q.start, q.limit with
    | some s, some l => (filtered.drop s).take l
    | _, _ => filtered
  let items := results.map Book.toView
  match q.start, q.limit with
  | some s, some l =>
      (200, response_format_success "Successfully Fetched"
        (some (CrudListPayload.paged items s l total_items)))
  | _, _ =>
      (200, response_format_success "Successfully Fetched"
        (some (CrudListPayload.items items)))

/-- `api/books.py::get_book_by_id`: lookup filtered by id and
`status != "Terminated"`; 404 failure "id not found" when absent, else
200 success with the five-field view. -/
def api_get_book_by_id (id : Nat) (store : List Book) : Nat × Body BookView :=
  match store.find? (fun b => b.id == id && b.status != "Terminated") with
  | none => (404, response_format_failure "id not found")
  | some data => (200, response_format_success "Successfully Fetched" (some data.toView))

/-- `app/crud/books.py::get_book_by_id`: lookup filtered by id only —
no status filter appears in the source query. -/
def crud_get_book_by_id (id : Nat) (store : List Book) : Nat × Body BookView :=
  match store.find? (fun b => b.id == id) with
  | none => (404, response_format_failure "id not found")
  | some data => (200, response_format_success "Successfully Fetched" (some data.toView))

/-- The dict `book_data.model_dump(exclude_unset=True)` of the update
handler: each recognized field either absent or carrying a value. -/
structure UpdateFields where
  title : Option String
  author : Option String
  published_year : Option Int
  genre : Option String
  available : Option Bool
  deriving DecidableEq, Repr

/-- `if not updates:` — the dump is empty when no field was set. -/
def UpdateFields.isEmptyDict (u : UpdateFields) : Bool :=
  u.title.isNone && u.author.isNone && u.published_year.isNone
    && u.genre.isNone && u.available.isNone

/-- The `for attr, value in updates.items(): setattr(book, attr, value)`
loop: each supplied field is overwritten, absent fields keep their
values; all five schema fields are attributes of `Book`. -/
def applyUpdates (u : UpdateFields) (b : Book) : Book :=
  { b with
    title := u.title.getD b.title,
    author := u.author.getD b.author,
    published_year := u.published_year.getD b.published_year,
    genre := u.genre.getD b.genre,
    available := u.available.getD b.available }

/-- `api/books.py::update_book`: lookup by id excluding Terminated (404
failure when absent).  An empty dump hits the branch calling
`response_format_failure("No changes provided", data={"id": id})`, but
the helper accepts no `data` argument, so that call raises TypeError and
the app-level generic exception handler answers 500
`response_format_failure("Something went wrong")` (the branch is
unreachable for schema-validated payloads, which always carry all five
fields).  Otherwise the supplied fields are applied to the found row and
200 success carrying the id is returned; at flush, SQLAlchemy's unit of
work compares attributes by equality and emits an UPDATE — which fires
the model's onupdate hook on `updated_at` — only when some applied value
differs from the row's current value; an identity-valued update emits no
UPDATE and stamps nothing. -/
def update_book (id : Nat) (updates : UpdateFields) (store : List Book) (now : Nat) :
    (Nat × Body Nat) × List Book :=
  match store.find? (fun b => b.id == id && b.status != "Terminated") with
  | none => ((404, response_format_failure "Book with provided ID Not Found"), store)
  | some _ =>
    if updates.isEmptyDict then
      ((500, response_format_failure "Something went wrong"), store)
    else
      ((200, response_format_success "Successfully Updated" (some id)),
        updateFirst (fun b => b.id == id && b.status != "Terminated")
          (fun b =>
            if applyUpdates updates b = b then b
            else stampUpdated now (applyUpdates updates b)) store)

/-- `api/books.py::delete_book`: lookup by id with no status filter; 404
with a success-shaped body when the id never existed; 200 "Book is
already terminated" with no mutation when the row is already Terminated;
else flip status to "Terminated" (the flush stamps `updated_at` via the
model's onupdate hook) and answer 200 "Successfully Deleted". -/
def delete_book (id : Nat) (store : List Book) (now : Nat) :
    (Nat × Body Unit) × List Book :=
  match store.find? (fun b => b.id == id) with
  | none => ((404, response_format_success "Book with provided ID Not Found" none), store)
  | some data =>
    if data.status == "Terminated" then
      ((200, response_format_success "Book is already terminated" none), store)
    else
      ((200, response_format_success "Successfully Deleted" none),
        updateFirst (fun b => b.id == id)
          (fun b => stampUpdated now { b with status := "Terminated" }) store)

/-- Python's `str.isdigit()`: true iff the string is nonempty and every
character is a digit. -/
def pyIsDigit (s : String) : Bool :=
  !s.isEmpty && s.toList.all Char.isDigit

/-- The five genre literals of `schema/request_schema.py`. -/
def genres : List String :=
  ["fiction", "non-fiction", "science", "history", "other"]

/-- A raw request payload before schema validation: each field present
or absent. -/
structure RawPayload where
  title : Option String
  author : Option String
  published_year : Option Int
  genre : Option String
  available : Option Bool
  deriving DecidableEq, Repr

/-- Validation of the required `title` field: min_length 1, max_length
255, then the custom validator rejecting all-digit titles. -/
def title_errors (t : Option String) : List String :=
  match t with
  | none => ["Field required"]
  | some v =>
    if v.length < 1 then ["String should have at least 1 character"]
    else if v.length > 255 then ["String should have at most 255 characters"]
    else if pyIsDigit v then ["Title cannot be only numbers"]
    else []

/-- Validation of the required `author` field: min_length 3, max_length
255, then the custom validator rejecting any digit. -/
def author_errors (a : Option String) : List String :=
  match a with
  | none => ["Field required"]
  | some v =>
    if v.length < 3 then ["String should have at least 3 characters"]
    else if v.length > 255 then ["String should have at most 255 characters"]
    else if v.toList.any Char.isDigit then ["Author name cannot contain numbers"]
    else []

/-- Validation of the required `published_year` field:
`ge=1450, le=datetime.datetime.now().year`.  The upper bound is the
result of evaluating `datetime.datetime.now().year` when the class body
runs, i.e. at module import; it is passed here as the constant
`importYear` and never re-read during validation. -/
def year_errors (importYear : Int) (y : Option Int) : List String :=
  match y with
  | none => ["Field required"]
  | some v =>
    if v < 1450 then ["Input should be greater than or equal to 1450"]
    else if v > importYear then
      ["Input should be less than or equal to " ++ toString importYear]
    else []

/-- Validation of the required `genre` field against the five-value
Literal. -/
def genre_errors (g : Option String) : List String :=
  match g with
  | none => ["Field required"]
  | some v =>
    if genres.contains v then []
    else ["Input should be \x27fiction\x27, \x27non-fiction\x27, \x27science\x27, \x27history\x27 or \x27other\x27"]

/-- Validation of the required `available` field: must be present and
boolean. -/
def available_errors (a : Option Bool) : List String :=
  match a with
  | none => ["Field required"]
  | some _ => []

/-- `schema/request_schema.py::BookSchema`: all five fields are
declared required (`Field(...)`); the failures of each field in one
pydantic pass, in field order. -/
def BookSchema_errors (importYear : Int) (p : RawPayload) : List String :=
  title_errors p.title ++ author_errors p.author
    ++ year_errors importYear p.published_year
    ++ genre_errors p.genre ++ available_errors p.available

/-- `schema/request_schema.py::BookUpdateSchema`: its field declarations
and validators are textually identical to `BookSchema`'s — in
particular all five fields are required, none is Optional. -/
def BookUpdateSchema_errors (importYear : Int) (p : RawPayload) : List String :=
  BookSchema_errors importYear p

/-- `exception/exception_handler.py::validation_error_handler`: join the
collected per-field messages with " & " and answer 422 with a failure
body. -/
def validation_error_handler (errors : List String) : Nat × Body Unit :=
  (422, response_format_failure (String.intercalate " & " errors))

/-- Modelled from the spec: "`published_year`: integer; fails with
InvalidField if < 1450 or > current year (evaluated at validation time,
not fixed)" — acceptance in terms of the calendar year current at the
moment of validation.  Used only to compare the claimed bound with the
code's import-time bound. -/
def spec_year_accepts (currentYear v : Int) : Bool :=
  1450 ≤ v && v ≤ currentYear

/-- A Terminated record (the spec's §8 example book after its delete). -/
def termBook : Book :=
  { id := 1, title := "Clean Code", author := "Robert Martin", published_year := 2008,
    genre := "science", available := true, status := "Terminated",
    created_at := 0, updated_at := none }

/-- A Present record (the fixture of `tests/test_books_api.py`). -/
def presentBook : Book :=
  { id := 1, title := "Test Driven Development", author := "Kent Beck",
    published_year := 2003, genre := "science", available := true,
    status := "Present", created_at := 0, updated_at := none }

/-- A create payload matching `termBook` up to case. -/
def dupPayload : BookPayload :=
  { title := "clean code", author := "robert martin", published_year := 2008,
    genre := "science", available := true }

/-- The list request with no filters and no pagination. -/
def noQuery : ListQuery :=
  { author := none, genre := none, available := none, start := none, limit := none }

/-- The list request filtering author by "kent" only. -/
def kentQuery : ListQuery :=
  { author := some "kent", genre := none, available := none, start := none, limit := none }

/-- The update dict of the repo's own `test_update_book`: only `title`
supplied. -/
def titleUpdate : UpdateFields :=
  { title := some "TDD Updated", author := none, published_year := none,
    genre := none, available := none }

/-- An identity-valued update dict: it supplies `title` with the value
`presentBook` already holds, so flushing it emits no UPDATE. -/
def identityUpdate : UpdateFields :=
  { title := some "Test Driven Development", author := none, published_year := none,
    genre := none, available := none }

/-- The raw body of `test_update_book`: `{"title": "TDD Updated"}`. -/
def rawTitleOnly : RawPayload :=
  { title := some "TDD Updated", author := none, published_year := none,
    genre := none, available := none }

/-- The raw body with no fields at all. -/
def rawEmpty : RawPayload :=
  { title := none, author := none, published_year := none,
    genre := none, available := none }

/-- A payload failing three field validations at once (spec §8: numeric
title, digit in author, year below the floor). -/
def rawBadPayload : RawPayload :=
  { title := some "12345", author := some "Jane3", published_year := some 1000,
    genre := some "science", available := some true }

/-- A payload valid in every field except `published_year = 1000`. -/
def rawValidBut1000 : RawPayload :=
  { title := some "Clean Code", author := some "Robert Martin",
    published_year := some 1000, genre := some "science", available := some true }

lemma find?_updateFirst (p : Book → Bool) (f : Book → Book) (l : List Book) (b : Book)
    (hf : ∀ x, p x = true → p (f x) = true)
    (h : l.find? p = some b) :
    (updateFirst p f l).find? p = some (f b) := by
  induction l with
  | nil => simp [List.find?] at h
  | cons c cs ih =>
    cases hc : p c with
    | true =>
      rw [List.find?_cons_of_pos _ hc] at h
      cases h
      rw [updateFirst, if_pos hc]
      exact List.find?_cons_of_pos _ (hf b hc)
    | false =>
      rw [List.find?_cons_of_neg _ (by simp [hc])] at h
      rw [updateFirst, if_neg (by simp [hc])]
      rw [List.find?_cons_of_neg _ (by simp [hc])]
      exact ih h

lemma mem_updateFirst (p : Book → Bool) (f : Book → Book) (l : List Book) (b : Book)
    (h : l.find? p = some b) :
    ∀ x ∈ updateFirst p f l, x ∈ l ∨ x = f b := by
  induction l with
  | nil => intro x hx; simp [updateFirst] at hx
  | cons c cs ih =>
    intro x hx
    cases hc : p c with
    | true =>
      rw [List.find?_cons_of_pos _ hc] at h
      cases h
      rw [updateFirst, if_pos hc] at hx
      rcases List.mem_cons.mp hx with hx | hx
      · exact Or.inr hx
      · exact Or.inl (List.mem_cons_of_mem _ hx)
    | false =>
      rw [List.find?_cons_of_neg _ (by simp [hc])] at h
      rw [updateFirst, if_neg (by simp [hc])] at hx
      rcases List.mem_cons.mp hx with hx | hx
      · exact Or.inl (hx ▸ List.mem_cons_self _ _)
      · rcases ih h x hx with hx | hx
        · exact Or.inl (List.mem_cons_of_mem _ hx)
        · exact Or.inr hx

lemma updateFirst_of_fix (p : Book → Bool) (f : Book → Book) (l : List Book) (b : Book)
    (h : l.find? p = some b) (hfb : f b = b) :
    updateFirst p f l = l := by
  induction l with
  | nil => rfl
  | cons c cs ih =>
    cases hc : p c with
    | true =>
      rw [List.find?_cons_of_pos _ hc] at h
      cases h
      rw [updateFirst, if_pos hc, hfb]
    | false =>
      rw [List.find?_cons_of_neg _ (by simp [hc])] at h
      rw [updateFirst, if_neg (by simp [hc]), ih h]

lemma delete_book_found (id : Nat) (store : List Book) (b : Book) (now : Nat)
    (h1 : store.find? (fun x => x.id == id) = some b)
    (h2 : b.status ≠ "Terminated") :
    delete_book id store now =
      ((200, response_format_success "Successfully Deleted" none),
        updateFirst (fun x => x.id == id)
          (fun x => stampUpdated now { x with status := "Terminated" }) store) := by
  have hb : (b.status == "Terminated") = false := beq_eq_false_iff_ne.mpr h2
  simp [delete_book, h1, hb]

lemma delete_book_already_terminated (id : Nat) (store : List Book) (b : Book) (now : Nat)
    (h1 : store.find? (fun x => x.id == id) = some b)
    (h2 : b.status = "Terminated") :
    delete_book id store now =
      ((200, response_format_success "Book is already terminated" none), store) := by
  simp [delete_book, h1, h2]

lemma delete_book_state_find (id : Nat) (store : List Book) (b : Book) (now : Nat)
    (h1 : store.find? (fun x => x.id == id) = some b) :
    (updateFirst (fun x => x.id == id)
        (fun x => stampUpdated now { x with status := "Terminated" }) store).find?
        (fun x => x.id == id) =
      some { b with status := "Terminated", updated_at := some now } := by
  exact find?_updateFirst _ _ store b (fun x hx => hx) h1

/-- Claim C1 counterexample: a store whose only record is Terminated and
matches the new payload's (title, author) up to case still makes Create
fail with 409 Conflict "Title and Author already present" — refuting
"a (title, author) match against only Terminated records never causes
Create to fail": `find_by_title_author` has no status filter. -/
theorem C1_counterexample :
    termBook.status = "Terminated" ∧
    (add_book dupPayload [termBook] 2 7).1.1 = 409 ∧
    (add_book dupPayload [termBook] 2 7).1.2 =
      response_format_failure "Title and Author already present" ∧
    (add_book dupPayload [termBook] 2 7).2 = [termBook] := by
  decide

/-- Claim C1 amended: Create fails with Conflict (HTTP 409) if and only
if some existing record — of any status, Terminated included — has the
same (title, author) pair under case-insensitive comparison. -/
theorem C1_amended (p : BookPayload) (store : List Book) (newId now : Nat) :
    (add_book p store newId now).1.1 = 409 ↔
      ∃ b ∈ store, strLower b.title = strLower p.title
        ∧ strLower b.author = strLower p.author := by
  have hany : find_by_title_author p.title p.author store = true ↔
      ∃ b ∈ store, strLower b.title = strLower p.title
        ∧ strLower b.author = strLower p.author := by
    simp [find_by_title_author, List.any_eq_true, Bool.and_eq_true]
  rw [← hany]
  unfold add_book
  cases h : find_by_title_author p.title p.author store with
  | true => simp [h]
  | false => simp [h]

/-- Claim C2 evaluated on the code: `BookUpdateSchema` declares all five
fields required, so the repo's own test input `{"title": "TDD Updated"}`
(from `test_update_book`) fails validation with four "Field required"
errors and a 422, and the empty payload fails with five — the claimed
optional-fields / no-op behavior is unreachable. -/
theorem C2_schema_rejects_test_input :
    BookUpdateSchema_errors 2025 rawTitleOnly =
      ["Field required", "Field required", "Field required", "Field required"] ∧
    validation_error_handler (BookUpdateSchema_errors 2025 rawTitleOnly) =
      (422, response_format_failure
        "Field required & Field required & Field required & Field required") ∧
    BookUpdateSchema_errors 2025 rawEmpty =
      ["Field required", "Field required", "Field required", "Field required",
       "Field required"] := by
  decide

/-- Claim C7 counterexample: the upper bound of `published_year` is the
year read once when the schema class body runs (module import), not the
year at validation time.  A process imported in 2025 and validating in
2026 rejects 2026, which the claim says must be accepted; only re-import
(bound 2026) accepts it. -/
theorem C7_counterexample :
    year_errors 2025 (some 2026) = ["Input should be less than or equal to 2025"] ∧
    spec_year_accepts 2026 2026 = true ∧
    year_errors 2026 (some 2026) = [] := by
  decide

/-- Claim C7 amended: validation of `published_year` fails if and only
if the value is less than 1450 or greater than the calendar year current
at module import (class-definition) time — a value fixed once per
process, not re-evaluated at each validation. -/
theorem C7_amended (importYear : Int) (p : RawPayload) (v : Int)
    (hy : p.published_year = some v)
    (ht : title_errors p.title = [])
    (ha : author_errors p.author = [])
    (hg : genre_errors p.genre = [])
    (hv : available_errors p.available = []) :
    BookSchema_errors importYear p ≠ [] ↔ v < 1450 ∨ v > importYear := by
  have hyear : year_errors importYear (some v) =
      if v < 1450 then ["Input should be greater than or equal to 1450"]
      else if v > importYear then
        ["Input should be less than or equal to " ++ toString importYear]
      else [] := rfl
  simp only [BookSchema_errors, ht, ha, hg, hv, hy, List.nil_append, List.append_nil]
  rw [hyear]
  split_ifs with h1 h2 <;> simp <;> omega

/-- Witness for C7 amended at `published_year = 1000` with every other
field valid and import year 2025. -/
theorem C7_witness :
    rawValidBut1000.published_year = some 1000 ∧
    title_errors rawValidBut1000.title = [] ∧
    author_errors rawValidBut1000.author = [] ∧
    genre_errors rawValidBut1000.genre = [] ∧
    available_errors rawValidBut1000.available = [] ∧
    (BookSchema_errors 2025 rawValidBut1000 ≠ [] ↔
      (1000 : Int) < 1450 ∨ (1000 : Int) > 2025) :=
  ⟨rfl, by decide, by decide, by decide, by decide,
    C7_amended 2025 rawValidBut1000 1000 rfl (by decide) (by decide)
      (by decide) (by decide)⟩

/-- Claim C10: Delete on an id that never existed answers HTTP 404 with
a success-shaped envelope (status flag true, message "Book with provided
ID Not Found"), while GetByID's not-found envelope carries status flag
false. -/
theorem C10_delete_notfound_envelope (id : Nat) (store : List Book) (now : Nat)
    (h : ∀ b ∈ store, b.id ≠ id) :
    delete_book id store now =
      ((404, response_format_success "Book with provided ID Not Found" none), store) ∧
    (response_format_success "Book with provided ID Not Found"
      (none : Option Unit)).statusFlag = true ∧
    api_get_book_by_id id store = (404, response_format_failure "id not found") ∧
    (response_format_failure "id not found" : Body BookView).statusFlag = false := by
  have hdel : store.find? (fun b => b.id == id) = none := by
    rw [List.find?_eq_none]
    intro b hb
    simp [h b hb]
  have hget : store.find? (fun b => b.id == id && b.status != "Terminated") = none := by
    rw [List.find?_eq_none]
    intro b hb
    simp [h b hb]
  exact ⟨by simp [delete_book, hdel], rfl, by simp [api_get_book_by_id, hget], rfl⟩

/-- Witness for C10 at id 99 against a store holding only a record with
id 1. -/
theorem C10_witness :
    (∀ b ∈ [presentBook], b.id ≠ 99) ∧
    (delete_book 99 [presentBook] 5 =
      ((404, response_format_success "Book with provided ID Not Found" none),
        [presentBook]) ∧
    (response_format_success "Book with provided ID Not Found"
      (none : Option Unit)).statusFlag = true ∧
    api_get_book_by_id 99 [presentBook] = (404, response_format_failure "id not found") ∧
    (response_format_failure "id not found" : Body BookView).statusFlag = false) :=
  ⟨by decide, C10_delete_notfound_envelope 99 [presentBook] 5 (by decide)⟩

/-- Claim C3 counterexample: the crud router's GetByID
(`app/crud/books.py::get_book_by_id`) filters by id only, so it answers
200 with the Terminated record's data instead of the claimed NotFound. -/
theorem C3_counterexample :
    termBook.status = "Terminated" ∧
    crud_get_book_by_id 1 [termBook] =
      (200, response_format_success "Successfully Fetched" (some termBook.toView)) := by
  decide

/-- Claim C3 amended: for a Terminated record, the api router's GetByID
and Update answer NotFound, and neither list filter ever retains the
record; but the crud router's GetByID has no status filter and surfaces
the Terminated record when it is the first row with that id. -/
theorem C3_amended (id : Nat) (store : List Book) (u : UpdateFields) (q : ListQuery)
    (now : Nat)
    (h : ∀ b ∈ store, b.id = id → b.status = "Terminated") :
    (api_get_book_by_id id store).1 = 404 ∧
    (update_book id u store now).1.1 = 404 ∧
    (∀ b ∈ store, b.status = "Terminated" →
      b ∉ store.filter (api_book_pred q) ∧ b ∉ store.filter (crud_book_pred q)) ∧
    (∀ b, store.find? (fun x => x.id == id) = some b →
      crud_get_book_by_id id store =
        (200, response_format_success "Successfully Fetched" (some b.toView))) := by
  have hnone : store.find? (fun b => b.id == id && b.status != "Terminated") = none := by
    rw [List.find?_eq_none]
    intro b hb
    simp only [Bool.and_eq_true, beq_iff_eq, bne_iff_ne, ne_eq, not_and, not_not]
    intro hid
    exact h b hb hid
  refine ⟨by simp [api_get_book_by_id, hnone], by simp [update_book, hnone], ?_, ?_⟩
  · intro b hb hterm
    constructor
    · simp [List.mem_filter, api_book_pred, hterm]
    · simp [List.mem_filter, crud_book_pred, hterm]
  · intro b hb
    simp [crud_get_book_by_id, hb]

/-- Witness for C3 amended against a store holding only a Terminated
record with id 1. -/
theorem C3_witness :
    (∀ b ∈ [termBook], b.id = 1 → b.status = "Terminated") ∧
    ((api_get_book_by_id 1 [termBook]).1 = 404 ∧
     (update_book 1 titleUpdate [termBook] 5).1.1 = 404 ∧
     (∀ b ∈ [termBook], b.status = "Terminated" →
       b ∉ [termBook].filter (api_book_pred noQuery)
         ∧ b ∉ [termBook].filter (crud_book_pred noQuery)) ∧
     (∀ b, [termBook].find? (fun x => x.id == 1) = some b →
       crud_get_book_by_id 1 [termBook] =
         (200, response_format_success "Successfully Fetched" (some b.toView)))) :=
  ⟨by decide, C3_amended 1 [termBook] titleUpdate noQuery 5 (by decide)⟩

/-- Claim C4: Delete looks the id up without excluding Terminated and is
idempotent — an id that never existed answers NotFound; the first Delete
on a Present record answers 200 "Successfully Deleted" and flips its
status to Terminated; the second Delete on the same id answers 200 with
the distinct "Book is already terminated" message and leaves the store
unchanged. -/
theorem C4_delete_idempotent (id id2 : Nat) (store : List Book) (b : Book)
    (now now2 : Nat)
    (h1 : store.find? (fun x => x.id == id) = some b)
    (h2 : b.status ≠ "Terminated")
    (h3 : ∀ x ∈ store, x.id ≠ id2) :
    delete_book id2 store now =
      ((404, response_format_success "Book with provided ID Not Found" none), store) ∧
    (delete_book id store now).1 =
      (200, response_format_success "Successfully Deleted" none) ∧
    (delete_book id store now).2.find? (fun x => x.id == id) =
      some { b with status := "Terminated", updated_at := some now } ∧
    delete_book id (delete_book id store now).2 now2 =
      ((200, response_format_success "Book is already terminated" none),
        (delete_book id store now).2) := by
  have hnone : store.find? (fun x => x.id == id2) = none := by
    rw [List.find?_eq_none]
    intro x hx
    simp [h3 x hx]
  have hdel := delete_book_found id store b now h1 h2
  have hfind2 : (delete_book id store now).2.find? (fun x => x.id == id) =
      some { b with status := "Terminated", updated_at := some now } := by
    rw [hdel]
    exact delete_book_state_find id store b now h1
  refine ⟨by simp [delete_book, hnone], by rw [hdel], hfind2, ?_⟩
  exact delete_book_already_terminated id (delete_book id store now).2 _ now2 hfind2 rfl

/-- Witness for C4: one Present record with id 1, deleted twice, and a
probe of the never-assigned id 99. -/
theorem C4_witness :
    ([presentBook].find? (fun x => x.id == 1) = some presentBook) ∧
    presentBook.status ≠ "Terminated" ∧
    (∀ x ∈ [presentBook], x.id ≠ 99) ∧
    (delete_book 99 [presentBook] 5 =
      ((404, response_format_success "Book with provided ID Not Found" none),
        [presentBook]) ∧
    (delete_book 1 [presentBook] 5).1 =
      (200, response_format_success "Successfully Deleted" none) ∧
    (delete_book 1 [presentBook] 5).2.find? (fun x => x.id == 1) =
      some { presentBook with status := "Terminated", updated_at := some 5 } ∧
    delete_book 1 (delete_book 1 [presentBook] 5).2 6 =
      ((200, response_format_success "Book is already terminated" none),
        (delete_book 1 [presentBook] 5).2)) :=
  ⟨by decide, by decide, by decide,
    C4_delete_idempotent 1 99 [presentBook] presentBook 5 6
      (by decide) (by decide) (by decide)⟩

/-- Claim C5 counterexample: soft delete does not leave every field
other than status untouched — the model's `onupdate=func.now()` hook
stamps `updated_at` on the UPDATE that persists the status flip.  Here
`updated_at` goes from null to the delete time. -/
theorem C5_counterexample :
    presentBook.status = "Present" ∧
    presentBook.updated_at = none ∧
    (delete_book 1 [presentBook] 10).2 =
      [{ presentBook with status := "Terminated", updated_at := some 10 }] ∧
    ({ presentBook with status := "Terminated", updated_at := some 10 }).updated_at
      ≠ presentBook.updated_at := by
  decide

/-- Claim C5 amended: Delete on a Present record changes its status to
Terminated and stamps `updated_at` (via the model's onupdate hook); id,
title, author, published_year, genre, available and created_at retain
their prior values, and no record value other than that rewrite enters
the store. -/
theorem C5_amended (id : Nat) (store : List Book) (b : Book) (now : Nat)
    (h1 : store.find? (fun x => x.id == id) = some b)
    (h2 : b.status ≠ "Terminated") :
    (delete_book id store now).1 =
      (200, response_format_success "Successfully Deleted" none) ∧
    (delete_book id store now).2.find? (fun x => x.id == id) =
      some { b with status := "Terminated", updated_at := some now } ∧
    (∀ x ∈ (delete_book id store now).2,
      x ∈ store ∨ x = { b with status := "Terminated", updated_at := some now }) := by
  have hdel := delete_book_found id store b now h1 h2
  refine ⟨by rw [hdel], ?_, ?_⟩
  · rw [hdel]
    exact delete_book_state_find id store b now h1
  · rw [hdel]
    intro x hx
    exact mem_updateFirst _ _ store b h1 x hx

/-- Witness for C5 amended on the singleton Present store. -/
theorem C5_witness :
    ([presentBook].find? (fun x => x.id == 1) = some presentBook) ∧
    presentBook.status ≠ "Terminated" ∧
    ((delete_book 1 [presentBook] 10).1 =
      (200, response_format_success "Successfully Deleted" none) ∧
    (delete_book 1 [presentBook] 10).2.find? (fun x => x.id == 1) =
      some { presentBook with status := "Terminated", updated_at := some 10 } ∧
    (∀ x ∈ (delete_book 1 [presentBook] 10).2,
      x ∈ [presentBook]
        ∨ x = { presentBook with status := "Terminated", updated_at := some 10 })) :=
  ⟨by decide, by decide, C5_amended 1 [presentBook] presentBook 10 (by decide) (by decide)⟩

/-- Claim C6 counterexample: an identity-valued update — non-empty
supplied set whose values all equal the record's current ones, fully
reachable since the deployed schema forces all five fields — answers 200
"Successfully Updated" carrying the id, but flushing emits no UPDATE, so
`updated_at` is NOT stamped and the record is unchanged; the claim's
"updated_at is stamped" fails there. -/
theorem C6_counterexample :
    identityUpdate.isEmptyDict = false ∧
    ([presentBook].find? (fun x => x.id == 1 && x.status != "Terminated")
      = some presentBook) ∧
    applyUpdates identityUpdate presentBook = presentBook ∧
    (update_book 1 identityUpdate [presentBook] 9).1 =
      (200, response_format_success "Successfully Updated" (some 1)) ∧
    (update_book 1 identityUpdate [presentBook] 9).2 = [presentBook] ∧
    presentBook.updated_at = none := by
  decide

/-- Claim C6 amended: Update on an existing non-Terminated record with a
non-empty set of supplied fields answers 200 success carrying the id;
exactly the supplied fields take the supplied values, every absent field
and id/status/created_at keep their prior values, and no other record
value enters the store; `updated_at` is stamped if and only if some
supplied value differs from the record's current value — an
identity-valued update emits no UPDATE and leaves the record, its
`updated_at` included, unchanged. -/
theorem C6_amended (id : Nat) (u : UpdateFields) (store : List Book) (b : Book)
    (now : Nat)
    (h1 : store.find? (fun x => x.id == id && x.status != "Terminated") = some b)
    (h2 : u.isEmptyDict = false) :
    (update_book id u store now).1 =
      (200, response_format_success "Successfully Updated" (some id)) ∧
    (applyUpdates u b = b → (update_book id u store now).2 = store) ∧
    (applyUpdates u b ≠ b →
      (update_book id u store now).2.find?
          (fun x => x.id == id && x.status != "Terminated") =
        some (stampUpdated now (applyUpdates u b)) ∧
      (∀ x ∈ (update_book id u store now).2,
        x ∈ store ∨ x = stampUpdated now (applyUpdates u b))) ∧
    (stampUpdated now (applyUpdates u b)).updated_at = some now ∧
    (u.title = none → (applyUpdates u b).title = b.title) ∧
    (∀ t, u.title = some t → (applyUpdates u b).title = t) ∧
    (u.author = none → (applyUpdates u b).author = b.author) ∧
    (∀ a, u.author = some a → (applyUpdates u b).author = a) ∧
    (u.published_year = none → (applyUpdates u b).published_year = b.published_year) ∧
    (∀ y, u.published_year = some y → (applyUpdates u b).published_year = y) ∧
    (u.genre = none → (applyUpdates u b).genre = b.genre) ∧
    (∀ g, u.genre = some g → (applyUpdates u b).genre = g) ∧
    (u.available = none → (applyUpdates u b).available = b.available) ∧
    (∀ v, u.available = some v → (applyUpdates u b).available = v) ∧
    (applyUpdates u b).id = b.id ∧
    (applyUpdates u b).status = b.status ∧
    (applyUpdates u b).created_at = b.created_at := by
  have hupd : update_book id u store now =
      ((200, response_format_success "Successfully Updated" (some id)),
        updateFirst (fun x => x.id == id && x.status != "Terminated")
          (fun x =>
            if applyUpdates u x = x then x
            else stampUpdated now (applyUpdates u x)) store) := by
    simp [update_book, h1, h2]
  have hf : ∀ x : Book, (x.id == id && x.status != "Terminated") = true →
      ((if applyUpdates u x = x then x
        else stampUpdated now (applyUpdates u x)).id == id
        && (if applyUpdates u x = x then x
            else stampUpdated now (applyUpdates u x)).status != "Terminated") = true := by
    intro x hx
    split
    · exact hx
    · exact hx
  refine ⟨by rw [hupd], ?_, ?_, rfl,
    fun h => by simp [applyUpdates, h], fun t h => by simp [applyUpdates, h],
    fun h => by simp [applyUpdates, h], fun a h => by simp [applyUpdates, h],
    fun h => by simp [applyUpdates, h], fun y h => by simp [applyUpdates, h],
    fun h => by simp [applyUpdates, h], fun g h => by simp [applyUpdates, h],
    fun h => by simp [applyUpdates, h], fun v h => by simp [applyUpdates, h],
    rfl, rfl, rfl⟩
  · intro heq
    rw [hupd]
    exact updateFirst_of_fix _ _ store b h1 (by rw [if_pos heq])
  · intro hne
    constructor
    · rw [hupd]
      rw [find?_updateFirst _ _ store b hf h1]
      rw [if_neg hne]
    · rw [hupd]
      intro x hx
      rcases mem_updateFirst _ _ store b h1 x hx with h | h
      · exact Or.inl h
      · rw [if_neg hne] at h
        exact Or.inr h

/-- Witness for C6 amended: the repo's own partial update `{"title":
"TDD Updated"}` — a genuine value change — applied to the Present
fixture record. -/
theorem C6_witness :
    ([presentBook].find? (fun x => x.id == 1 && x.status != "Terminated")
        = some presentBook) ∧
    titleUpdate.isEmptyDict = false ∧
    ((update_book 1 titleUpdate [presentBook] 9).1 =
      (200, response_format_success "Successfully Updated" (some 1)) ∧
    (applyUpdates titleUpdate presentBook = presentBook →
      (update_book 1 titleUpdate [presentBook] 9).2 = [presentBook]) ∧
    (applyUpdates titleUpdate presentBook ≠ presentBook →
      (update_book 1 titleUpdate [presentBook] 9).2.find?
          (fun x => x.id == 1 && x.status != "Terminated") =
        some (stampUpdated 9 (applyUpdates titleUpdate presentBook)) ∧
      (∀ x ∈ (update_book 1 titleUpdate [presentBook] 9).2,
        x ∈ [presentBook]
          ∨ x = stampUpdated 9 (applyUpdates titleUpdate presentBook))) ∧
    (stampUpdated 9 (applyUpdates titleUpdate presentBook)).updated_at = some 9 ∧
    (titleUpdate.title = none →
      (applyUpdates titleUpdate presentBook).title = presentBook.title) ∧
    (∀ t, titleUpdate.title = some t →
      (applyUpdates titleUpdate presentBook).title = t) ∧
    (titleUpdate.author = none →
      (applyUpdates titleUpdate presentBook).author = presentBook.author) ∧
    (∀ a, titleUpdate.author = some a →
      (applyUpdates titleUpdate presentBook).author = a) ∧
    (titleUpdate.published_year = none →
      (applyUpdates titleUpdate presentBook).published_year
        = presentBook.published_year) ∧
    (∀ y, titleUpdate.published_year = some y →
      (applyUpdates titleUpdate presentBook).published_year = y) ∧
    (titleUpdate.genre = none →
      (applyUpdates titleUpdate presentBook).genre = presentBook.genre) ∧
    (∀ g, titleUpdate.genre = some g →
      (applyUpdates titleUpdate presentBook).genre = g) ∧
    (titleUpdate.available = none →
      (applyUpdates titleUpdate presentBook).available = presentBook.available) ∧
    (∀ v, titleUpdate.available = some v →
      (applyUpdates titleUpdate presentBook).available = v) ∧
    (applyUpdates titleUpdate presentBook).id = presentBook.id ∧
    (applyUpdates titleUpdate presentBook).status = presentBook.status ∧
    (applyUpdates titleUpdate presentBook).created_at = presentBook.created_at) :=
  ⟨by decide, by decide,
    C6_amended 1 titleUpdate [presentBook] presentBook 9 (by decide) (by decide)⟩

lemma api_book_pred_iff (q : ListQuery) (b : Book) :
    api_book_pred q b = true ↔
      (∀ a, q.author = some a → ilikeContains b.author a = true) ∧
      (∀ g, q.genre = some g → b.genre = g) ∧
      (∀ v, q.available = some v → b.available = v) ∧
      b.status ≠ "Terminated" := by
  rcases q with ⟨qa, qg, qv, qs, ql⟩
  cases qa <;> cases qg <;> cases qv <;>
    simp [api_book_pred, Bool.and_eq_true, bne_iff_ne, and_assoc]

lemma crud_book_pred_author (q : ListQuery) (b : Book) (a : String)
    (hq : q.author = some a) (hb : crud_book_pred q b = true) : b.author = a := by
  rcases q with ⟨qa, qg, qv, qs, ql⟩
  simp only at hq
  subst hq
  simp only [crud_book_pred, Bool.and_eq_true, beq_iff_eq] at hb
  exact hb.1.1.1

lemma api_get_book_paged (q : ListQuery) (store : List Book) (s l : Nat)
    (hs : q.start = some s) (hl : q.limit = some l) :
    api_get_book q store =
      (200, response_format_success "Successfully Fetched"
        (some (ApiListPayload.paged
          ((((store.filter (api_book_pred q)).drop s).take l).map Book.toItem)
          s l (store.filter (api_book_pred q)).length))) := by
  rcases q with ⟨qa, qg, qv, qs, ql⟩
  simp only at hs hl
  subst hs
  subst hl
  rfl

lemma api_get_book_unpaged (q : ListQuery) (store : List Book)
    (h : q.start = none ∨ q.limit = none) :
    api_get_book q store =
      (200, response_format_success "Successfully Fetched"
        (some (ApiListPayload.items ((store.filter (api_book_pred q)).map Book.toItem)))) := by
  rcases q with ⟨qa, qg, qv, qs, ql⟩
  simp only at h
  rcases h with h | h
  · subst h
    rfl
  · subst h
    cases qs <;> rfl

/-- Claim C8 counterexample: the crud router's List
(`app/crud/books.py::get_book`) matches author by exact equality, not as
a case-insensitive substring — the filter "kent" misses the Present
record authored "Kent Beck", while the api router's `ilike` filter finds
it. -/
theorem C8_counterexample :
    presentBook.author = "Kent Beck" ∧
    presentBook.status ≠ "Terminated" ∧
    ilikeContains presentBook.author "kent" = true ∧
    crud_get_book kentQuery [presentBook] =
      (200, response_format_success "Successfully Fetched"
        (some (CrudListPayload.items []))) ∧
    api_get_book kentQuery [presentBook] =
      (200, response_format_success "Successfully Fetched"
        (some (ApiListPayload.items [presentBook.toItem]))) := by
  decide

/-- Claim C8 amended: in the api router the filters are AND-combined
over non-Terminated records with author as a case-insensitive substring,
genre and available exact and absent filters unconstrained; offset/limit
apply only when both start and limit are supplied, the full filtered set
is returned otherwise, and the paginated response carries total_items
counted before pagination.  The crud router's List differs in one point:
its author filter is exact equality. -/
theorem C8_amended (q : ListQuery) (store : List Book) :
    (∀ b, b ∈ store.filter (api_book_pred q) ↔
      b ∈ store ∧
      (∀ a, q.author = some a → ilikeContains b.author a = true) ∧
      (∀ g, q.genre = some g → b.genre = g) ∧
      (∀ v, q.available = some v → b.available = v) ∧
      b.status ≠ "Terminated") ∧
    (∀ s l, q.start = some s → q.limit = some l →
      api_get_book q store =
        (200, response_format_success "Successfully Fetched"
          (some (ApiListPayload.paged
            ((((store.filter (api_book_pred q)).drop s).take l).map Book.toItem)
            s l (store.filter (api_book_pred q)).length)))) ∧
    (q.start = none ∨ q.limit = none →
      api_get_book q store =
        (200, response_format_success "Successfully Fetched"
          (some (ApiListPayload.items
            ((store.filter (api_book_pred q)).map Book.toItem))))) ∧
    (∀ b a, q.author = some a → b ∈ store.filter (crud_book_pred q) → b.author = a) := by
  refine ⟨?_, ?_, ?_, ?_⟩
  · intro b
    rw [List.mem_filter, api_book_pred_iff]
  · intro s l hs hl
    exact api_get_book_paged q store s l hs hl
  · intro h
    exact api_get_book_unpaged q store h
  · intro b a hq hb
    exact crud_book_pred_author q b a hq (List.mem_filter.mp hb).2

/-- Claim C9: for every invalid Create/Update payload the field-level
failures of the one validation pass are all collected — each field's
failure message is in the reported list regardless of the other fields —
and joined with " & " into one composite message returned with HTTP 422
and a failure-flagged envelope. -/
theorem C9_errors_joined (importYear : Int) (p : RawPayload)
    (h : BookSchema_errors importYear p ≠ []) :
    validation_error_handler (BookSchema_errors importYear p) =
      (422, response_format_failure
        (String.intercalate " & " (BookSchema_errors importYear p))) ∧
    (validation_error_handler (BookSchema_errors importYear p)).2.statusFlag = false ∧
    (∀ e ∈ title_errors p.title, e ∈ BookSchema_errors importYear p) ∧
    (∀ e ∈ author_errors p.author, e ∈ BookSchema_errors importYear p) ∧
    (∀ e ∈ year_errors importYear p.published_year, e ∈ BookSchema_errors importYear p) ∧
    (∀ e ∈ genre_errors p.genre, e ∈ BookSchema_errors importYear p) ∧
    (∀ e ∈ available_errors p.available, e ∈ BookSchema_errors importYear p) := by
  refine ⟨rfl, rfl, ?_, ?_, ?_, ?_, ?_⟩ <;>
    · intro e he
      simp [BookSchema_errors, he]

/-- Witness for C9: the spec §8 payload failing three validations at
once (numeric title, digit in author, year 1000) reports all three
messages joined. -/
theorem C9_witness :
    BookSchema_errors 2025 rawBadPayload ≠ [] ∧
    BookSchema_errors 2025 rawBadPayload =
      ["Title cannot be only numbers", "Author name cannot contain numbers",
       "Input should be greater than or equal to 1450"] ∧
    validation_error_handler (BookSchema_errors 2025 rawBadPayload) =
      (422, response_format_failure
        ("Title cannot be only numbers & Author name cannot contain numbers"
          ++ " & Input should be greater than or equal to 1450")) ∧
    ((validation_error_handler (BookSchema_errors 2025 rawBadPayload)).2.statusFlag
        = false ∧
      (∀ e ∈ title_errors rawBadPayload.title, e ∈ BookSchema_errors 2025 rawBadPayload) ∧
      (∀ e ∈ author_errors rawBadPayload.author,
        e ∈ BookSchema_errors 2025 rawBadPayload) ∧
      (∀ e ∈ year_errors 2025 rawBadPayload.published_year,
        e ∈ BookSchema_errors 2025 rawBadPayload) ∧
      (∀ e ∈ genre_errors rawBadPayload.genre,
        e ∈ BookSchema_errors 2025 rawBadPayload) ∧
      (∀ e ∈ available_errors rawBadPayload.available,
        e ∈ BookSchema_errors 2025 rawBadPayload)) :=
  ⟨by decide, by decide, by decide,
    ((C9_errors_joined 2025 rawBadPayload (by decide)).2)⟩

end FastApiApp
